import Mathlib

/-!
Verification development for the CHSRMT heat-stress engine (src/app.py).

The computation core is embedded shallowly:
* user-entered quantities (environmental inputs, penalty selections,
  thresholds, instrument readings) are rationals;
* transcendental derived quantities (Stull wet-bulb, WBGT, the MWL model)
  are real-valued functions of those inputs;
* the Streamlit session state that the engine reads and writes is a `State`
  record, and one script run (one evaluation) is a function on it, split
  into the same blocks as the source: Block 5 (baseline freeze), the
  penalty widgets, Block 5B (apply action), Block 6 (thresholds), Block 7
  (band, MWL ratchet, HSP, final risk).

Python's `round(x, n)` rounds half to even; `rndHE` reproduces that.
-/

namespace CHSRMT

/-- Environmental reading, internal metric units (Block 4): dry-bulb degC,
relative humidity percent, wind speed in m/s, globe temperature degC,
pressure kPa. -/
structure Env where
  db : ℚ
  rh : ℚ
  ws : ℚ
  gt : ℚ
  p  : ℚ
deriving DecidableEq

/-- Round half to even (Python `round` tie behaviour) on rationals. -/
def rndHE (x : ℚ) : ℤ :=
  if Int.fract x < 1/2 then ⌊x⌋
  else if 1/2 < Int.fract x then ⌊x⌋ + 1
  else if ⌊x⌋ % 2 = 0 then ⌊x⌋ else ⌊x⌋ + 1

/-- Python `round(x, 3)`. -/
def round3 (x : ℚ) : ℚ := (rndHE (x * 1000) : ℚ) / 1000

/-- Python `round(x, 2)` on a rational. -/
def round2q (x : ℚ) : ℚ := (rndHE (x * 100) : ℚ) / 100

open Classical in
/-- Round half to even on reals, for `round(wbgt_env, 2)` in Block 7. -/
noncomputable def rndHEr (x : ℝ) : ℤ :=
  if Int.fract x < 1/2 then ⌊x⌋
  else if 1/2 < Int.fract x then ⌊x⌋ + 1
  else if ⌊x⌋ % 2 = 0 then ⌊x⌋ else ⌊x⌋ + 1

/-- Block 5 environmental signature: the five inputs rounded to 3 decimals
(keys db, rh, gt, ws, p of `env_now`). -/
def sig5 (e : Env) : ℚ × ℚ × ℚ × ℚ × ℚ :=
  (round3 e.db, round3 e.rh, round3 e.gt, round3 e.ws, round3 e.p)

/-- Stull natural wet-bulb formula, exactly as written inline in Block 5 and
inside `_stull_wb_c` of `estimate_mwl_wm2`. -/
noncomputable def stullWb (t rh : ℝ) : ℝ :=
  t * Real.arctan (0.151977 * Real.sqrt (rh + 8.313659))
    + Real.arctan (t + rh) - Real.arctan (rh - 1.676331)
    + 0.00391838 * rh ^ (1.5 : ℝ) * Real.arctan (0.023101 * rh)
    - 4.686035

/-- Wind-damped globe temperature (Block 5):
`v = max(ws, 0.1); f = 1/(1+0.4*sqrt(v)); gt_adj = db + (gt-db)*f`. -/
noncomputable def gtAdjC (db gt ws : ℝ) : ℝ :=
  db + (gt - db) * (1 / (1 + 0.4 * Real.sqrt (max ws 0.1)))

/-- Outdoor WBGT (Block 5): `0.7*twb + 0.2*gt_adj + 0.1*db`. -/
noncomputable def wbgtRawC (e : Env) : ℝ :=
  0.7 * stullWb (e.db : ℝ) (e.rh : ℝ)
    + 0.2 * gtAdjC (e.db : ℝ) (e.gt : ℝ) (e.ws : ℝ) + 0.1 * (e.db : ℝ)

/-- Block 7 MWL signature type: `round(db,2), round(rh,2), round(ws,2),
round(gt,2)`, the integer `round(wbgt_env*100)` standing for
`round(wbgt_env, 2)` (an injective recoding), and `round(pen,2)`. -/
abbrev MwlSig := ℚ × ℚ × ℚ × ℚ × ℤ × ℚ

/-- Block 7 `env_sig` for the MWL ratchet. -/
noncomputable def mwlSigOf (e : Env) (wbgtEnv : ℝ) (pen : ℚ) : MwlSig :=
  (round2q e.db, round2q e.rh, round2q e.ws, round2q e.gt,
    rndHEr (wbgtEnv * 100), round2q pen)

/-- The session state the engine core reads and writes: the Block 5 stored
signature `prev_env` and the Block 4 `env_dirty` flag, the frozen baseline
and effective WBGT, the penalties-applied flag and stored total penalty,
the live per-category penalty selections (`pen_clo_c` etc.), the optional
instrument capacity `twl_measured`, and the MWL ratchet memory
(`mwl_env_sig`, `mwl_env_prev`). -/
structure State where
  prevEnv : Option (ℚ × ℚ × ℚ × ℚ × ℚ)
  envDirty : Bool
  frozen : Option ℝ
  penaltiesApplied : Bool
  totalPenalty : ℚ
  wbgtEff : Option ℝ
  penClo : ℚ
  penVeh : ℚ
  penRad : ℚ
  penAdhoc : ℚ
  twlMeasured : ℚ
  mwlSig : Option MwlSig
  mwlPrev : Option ℝ

/-- The session defaults of Block 1 (`ss_default` calls): no stored
signature, clean flags, zero penalties, no instrument reading, empty
ratchet memory. -/
def initState : State :=
  { prevEnv := none, envDirty := false, frozen := none,
    penaltiesApplied := false, totalPenalty := 0, wbgtEff := none,
    penClo := 0, penVeh := 0, penRad := 0, penAdhoc := 0,
    twlMeasured := 0, mwlSig := none, mwlPrev := none }

/-- Block 5: reset the frozen baseline when `env_dirty` is set or the
rounded signature differs from the stored one (clearing penalties and the
effective WBGT with it), freeze the fresh baseline WBGT if none is frozen,
and, while penalties are not applied, tie the effective WBGT to the frozen
baseline. -/
noncomputable def block5 (s : State) (e : Env) : State :=
  let sNow := sig5 e
  let s1 :=
    if s.envDirty = true ∨ s.prevEnv ≠ some sNow then
      { s with frozen := none, penaltiesApplied := false, totalPenalty := 0,
               wbgtEff := none, prevEnv := some sNow, envDirty := false }
    else s
  let s2 :=
    match s1.frozen with
    | none => { s1 with frozen := some (wbgtRawC e) }
    | some _ => s1
  if s2.penaltiesApplied then s2 else { s2 with wbgtEff := s2.frozen }

/-- The exposure-adjustment widgets: this run's selections are written to
the live penalty keys, and the instrument TWL input to `twl_measured`. -/
def setPens (s : State) (p1 p2 p3 p4 twl : ℚ) : State :=
  { s with penClo := p1, penVeh := p2, penRad := p3, penAdhoc := p4,
           twlMeasured := twl }

/-- Python `min(max(x, lo), hi)` as used by the Block 5B safety clamps. -/
def clampQ (x lo hi : ℚ) : ℚ := min (max x lo) hi

/-- Block 5B total penalty: per-category clamps (PPE and vehicle to [0,3],
radiant to [0,5], ad-hoc to [0,4]), then the global cap at 10. -/
def totalPenaltyOf (p1 p2 p3 p4 : ℚ) : ℚ :=
  min (clampQ p1 0 3 + clampQ p2 0 3 + clampQ p3 0 5 + clampQ p4 0 4) 10

/-- Block 5B apply action. When the button is clicked: with no frozen
baseline, show the error and change nothing (the Bool result mirrors
`st.error` being displayed); otherwise clamp and total the live penalties,
set the effective WBGT to frozen baseline plus total, and mark penalties
applied. -/
noncomputable def block5B (s : State) (clicked : Bool) : State × Bool :=
  if clicked then
    match s.frozen with
    | none => (s, true)
    | some w =>
      let tot := totalPenaltyOf s.penClo s.penVeh s.penRad s.penAdhoc
      ({ s with totalPenalty := tot, wbgtEff := some (w + (tot : ℝ)),
                penaltiesApplied := true }, false)
  else (s, false)

/-- Block 6 WBGT cut-points: A=29, B=32, C=35 degC, all shifted down 2 degC
for a non-acclimatized worker. -/
def thresholds (acclimatized : Bool) : ℚ × ℚ × ℚ :=
  if acclimatized then (29, 32, 35) else (29 - 2, 32 - 2, 35 - 2)

/-- The MWL cooling-capacity model `estimate_mwl_wm2` (Block 1): base from
WBGT, wind, radiant, humidity and wet-bulb-ceiling modifiers, final clamp
to [0, 450]. -/
noncomputable def estimate_mwl_wm2 (db rh ws gt wbgt : ℝ) : ℝ :=
  let rhc := max 0 (min 100 rh)
  let wsc := max 0 ws
  let mwlBase := max 0 (min 450 (600 - 0.30 * wbgt ^ 2))
  let windMod := max 0.85 (min 1.40 (1 + 0.18 * Real.log (1 + wsc)))
  let radMod := max 0.75 (min 1.05 (1 - 0.005 * max 0 (gt - db)))
  let rhMod0 :=
    if rhc ≤ 20 then 1 + 0.08 * (20 - rhc) / 20
    else if rhc ≤ 60 then 1 - 0.10 * (rhc - 20) / 40
    else 0.90 - 0.35 * (rhc - 60) / 40
  let rhMod := max 0.55 (min 1.08 rhMod0)
  let wb := stullWb db (max 0 (min 100 rhc))
  let wbPen := if wb > 25 then max 0.55 (min 1 (1 - 0.015 * (wb - 25))) else 1
  max 0 (min 450 (mwlBase * windMod * radMod * rhMod * wbPen))

/-- The `apply_capacity_penalties` function (Block 1): weighted capacity
loss from the penalty terms floored at 0 (weights 18, 12, 10, 8 W per m2
per degC), with the result floored at `MWL_MIN` = 60. -/
noncomputable def apply_capacity_penalties (mwlEnv : ℝ) (ppe veh rad adh : ℚ) : ℝ :=
  let loss : ℝ := 18 * max 0 (ppe : ℝ) + 12 * max 0 (veh : ℝ)
    + 10 * max 0 (rad : ℝ) + 8 * max 0 (adh : ℝ)
  max 60 (mwlEnv - loss)

/-- The four-level risk scale of Block 7. -/
inductive Risk
  | LOW
  | CAUTION
  | HIGH_STRAIN
  | WITHDRAWAL
deriving DecidableEq

/-- Numeric severity of a risk level: LOW 0, CAUTION 1, HIGH STRAIN 2,
WITHDRAWAL 3, matching the severity codes of `_wbgt_band_from_eff`. -/
def Risk.sev : Risk → ℕ
  | .LOW => 0
  | .CAUTION => 1
  | .HIGH_STRAIN => 2
  | .WITHDRAWAL => 3

open Classical in
/-- The severity component of `_wbgt_band_from_eff`: `eff < A` gives 0,
`eff < B` gives 1, `eff < C` gives 2, else 3. -/
noncomputable def wbgtBandSev (eff A B C : ℝ) : ℕ :=
  if eff < A then 0 else if eff < B then 1 else if eff < C then 2 else 3

/-- The Block 7 mapping from severity to the initial `final_risk` value
(`sev >= 3` WITHDRAWAL, `== 2` HIGH STRAIN, `== 1` CAUTION, else LOW). -/
def riskOfSev (sev : ℕ) : Risk :=
  if 3 ≤ sev then .WITHDRAWAL
  else if sev = 2 then .HIGH_STRAIN
  else if sev = 1 then .CAUTION
  else .LOW

open Classical in
/-- The Block 7 HSP override on `final_risk`: applied only when the
`use_phys` checkbox is on and an HSP value exists; `hsp >= 1.30` forces
WITHDRAWAL, `hsp >= 1.00` escalates LOW or CAUTION to HIGH STRAIN,
`0.80 <= hsp < 1.00` escalates LOW to CAUTION. -/
noncomputable def hspOverride (usePhys : Bool) (hsp : Option ℝ) (r : Risk) : Risk :=
  match hsp with
  | none => r
  | some h =>
    if usePhys then
      if 1.30 ≤ h then .WITHDRAWAL
      else if 1.00 ≤ h ∧ (r = .LOW ∨ r = .CAUTION) then .HIGH_STRAIN
      else if 0.80 ≤ h ∧ h < 1.00 ∧ r = .LOW then .CAUTION
      else r
    else r

open Classical in
/-- The Block 7 physiological cap table, first matching rule wins:
globe >= 50 and wind < 0.5 gives 115; globe >= 45 gives 140;
baseline WBGT >= 33 gives 170; >= 30 gives 220; else 280. -/
noncomputable def mwlCapOf (gt ws : ℚ) (wbgtEnv : ℝ) : ℝ :=
  if 50 ≤ gt ∧ ws < 0.5 then 115
  else if 45 ≤ gt then 140
  else if (33 : ℝ) ≤ wbgtEnv then 170
  else if (30 : ℝ) ≤ wbgtEnv then 220
  else 280

/-- The outputs of one Block 7 evaluation: WBGT band severity, HSP,
environmental and operational capacity, the cap applied, whether the
capacity came from the instrument reading, and the final risk level. -/
structure Out where
  sev : ℕ
  hsp : Option ℝ
  mwlEnv : Option ℝ
  mwlOp : Option ℝ
  capApplied : Option ℝ
  instrumentSource : Bool
  finalRisk : Risk

/-- Block 7 raw capacity: the instrument reading when positive, else the
output of the multiplicative model. -/
noncomputable def rawOf (s : State) (e : Env) (wEnv : ℝ) : ℝ :=
  if 0 < s.twlMeasured then (s.twlMeasured : ℝ)
  else estimate_mwl_wm2 (e.db : ℝ) (e.rh : ℝ) (e.ws : ℝ) (e.gt : ℝ) wEnv

/-- Block 7 ratchet memory read: the stored `mwl_env_prev` when the stored
signature equals the current one, else the 9999 sentinel (memory popped on
signature change; `ss.get` default 9999). -/
noncomputable def prevMemOf (s : State) (e : Env) (wEnv : ℝ) : ℝ :=
  if s.mwlSig = some (mwlSigOf e wEnv s.totalPenalty)
  then s.mwlPrev.getD 9999 else 9999

/-- Block 7 environmental capacity: `min(raw, cap, prev)`. -/
noncomputable def mwlEnvOf (s : State) (e : Env) (wEnv : ℝ) : ℝ :=
  min (rawOf s e wEnv) (min (mwlCapOf e.gt e.ws wEnv) (prevMemOf s e wEnv))

/-- Block 7 operational capacity: `apply_capacity_penalties` on the
environmental capacity with the live penalty selections. -/
noncomputable def mwlOpOf (s : State) (e : Env) (wEnv : ℝ) : ℝ :=
  apply_capacity_penalties (mwlEnvOf s e wEnv) s.penClo s.penVeh s.penRad s.penAdhoc

/-- Block 7 HSP: `(wbgt_op * 200) / (max(1, mwl_op) * 30)`. -/
noncomputable def hspValOf (s : State) (e : Env) (eff wEnv : ℝ) : ℝ :=
  (eff * 200) / (max 1 (mwlOpOf s e wEnv) * 30)

open Classical in
/-- Block 7. Stops (returns `none`) when no effective WBGT exists.
Otherwise: band the effective WBGT; if a frozen baseline exists, take the
instrument capacity when positive else the model output, cap it, run the
signature-keyed ratchet (`min(raw, cap, prev)` with the memory reset to the
9999 sentinel on signature change), derive the operational capacity from
the live penalty selections, compute HSP, and resolve the final risk. -/
noncomputable def block7 (s : State) (e : Env) (A B C : ℚ) (usePhys : Bool) :
    Option (State × Out) :=
  match s.wbgtEff with
  | none => none
  | some eff =>
    match s.frozen with
    | none =>
      some (s, { sev := wbgtBandSev eff (A : ℝ) (B : ℝ) (C : ℝ),
                 hsp := none, mwlEnv := none, mwlOp := none,
                 capApplied := none, instrumentSource := false,
                 finalRisk := hspOverride usePhys none
                   (riskOfSev (wbgtBandSev eff (A : ℝ) (B : ℝ) (C : ℝ))) })
    | some wEnv =>
      some ({ s with mwlSig := some (mwlSigOf e wEnv s.totalPenalty),
                     mwlPrev := some (mwlEnvOf s e wEnv) },
            { sev := wbgtBandSev eff (A : ℝ) (B : ℝ) (C : ℝ),
              hsp := some (hspValOf s e eff wEnv),
              mwlEnv := some (mwlEnvOf s e wEnv),
              mwlOp := some (mwlOpOf s e wEnv),
              capApplied := some (mwlCapOf e.gt e.ws wEnv),
              instrumentSource := decide (0 < s.twlMeasured),
              finalRisk := hspOverride usePhys (some (hspValOf s e eff wEnv))
                (riskOfSev (wbgtBandSev eff (A : ℝ) (B : ℝ) (C : ℝ))) })

/-- One full evaluation (one script run of the core): Block 5, the penalty
widgets, Block 5B with `clicked` saying whether the apply button was
pressed this run, Block 6 thresholds from the acclimatization toggle, then
Block 7. Returns the final state, whether `BaselineUnavailable` was shown,
and the Block 7 outputs (when produced). -/
noncomputable def evalStep (s : State) (e : Env) (p1 p2 p3 p4 twl : ℚ)
    (clicked acclimatized usePhys : Bool) : State × Bool × Option Out :=
  let sA := block5 s e
  let sB := setPens sA p1 p2 p3 p4 twl
  let sC := block5B sB clicked
  let t := thresholds acclimatized
  match block7 sC.1 e t.1 t.2.1 t.2.2 usePhys with
  | none => (sC.1, sC.2, none)
  | some so => (so.1, sC.2, some so.2)

/-- A concrete mild reading (Scenario 1 inputs): 32 degC dry-bulb, 60 percent
RH, 1 m/s wind, 35 degC globe, 101.3 kPa. -/
def env1 : Env := { db := 32, rh := 60, ws := 1, gt := 35, p := 101.3 }

/-- A concrete extreme-radiant reading (Scenario 2 inputs): globe 55 degC,
wind 0.2 m/s. -/
def env6 : Env := { db := 40, rh := 30, ws := 0.2, gt := 55, p := 101.3 }

/-- A concrete sub-zero reading (dry-bulb and globe at -50 degC, dry air). -/
def coldEnv : Env := { db := -50, rh := 0, ws := 1, gt := -50, p := 101.3 }

/-- A session mid-assessment on `env1`: frozen baseline 28 degC, no
penalties applied yet, instrument capacity 200 W/m2 entered. -/
def stat1 : State :=
  { initState with prevEnv := some (sig5 env1), frozen := some 28,
                   wbgtEff := some 28, twlMeasured := 200 }

/-- A session with a low frozen baseline (20 degC) but a heavy live PPE
selection of 10 degC and instrument capacity 200 W/m2. -/
def stat4 : State :=
  { initState with frozen := some 20, wbgtEff := some 20, penClo := 10,
                   twlMeasured := 200 }

/-- A session on `env1` just after an apply of a 2 degC total penalty:
frozen 28 degC, effective 30 degC, penalties applied. -/
def stat7 : State :=
  { initState with prevEnv := some (sig5 env1), frozen := some 28,
                   penaltiesApplied := true, totalPenalty := 2,
                   wbgtEff := some 30, twlMeasured := 200 }

/-! ### Helper lemmas about the embedded operations -/

theorem arctan_nonneg_of_nonneg {x : ℝ} (hx : 0 ≤ x) : 0 ≤ Real.arctan x := by
  rw [← Real.arctan_zero]
  exact Real.arctan_strictMono.monotone hx

theorem arctan_le_self_of_nonneg {x : ℝ} (hx : 0 ≤ x) : Real.arctan x ≤ x := by
  have h0 : 0 ≤ Real.arctan x := arctan_nonneg_of_nonneg hx
  calc Real.arctan x ≤ Real.tan (Real.arctan x) :=
        Real.le_tan h0 (Real.arctan_lt_pi_div_two x)
    _ = x := Real.tan_arctan x

theorem mwlCapOf_le_280 (gt ws : ℚ) (w : ℝ) : mwlCapOf gt ws w ≤ 280 := by
  unfold mwlCapOf
  split_ifs <;> norm_num

theorem block7_none (s : State) (e : Env) (A B C : ℚ) (up : Bool)
    (h : s.wbgtEff = none) : block7 s e A B C up = none := by
  simp only [block7, h]

theorem block7_eq_noBaseline (s : State) (e : Env) (A B C : ℚ) (up : Bool) (eff : ℝ)
    (h1 : s.wbgtEff = some eff) (h2 : s.frozen = none) :
    block7 s e A B C up =
      some (s, { sev := wbgtBandSev eff (A : ℝ) (B : ℝ) (C : ℝ),
                 hsp := none, mwlEnv := none, mwlOp := none,
                 capApplied := none, instrumentSource := false,
                 finalRisk := hspOverride up none
                   (riskOfSev (wbgtBandSev eff (A : ℝ) (B : ℝ) (C : ℝ))) }) := by
  simp only [block7, h1, h2]

theorem block7_eq (s : State) (e : Env) (A B C : ℚ) (up : Bool) (eff w : ℝ)
    (h1 : s.wbgtEff = some eff) (h2 : s.frozen = some w) :
    block7 s e A B C up =
      some ({ s with mwlSig := some (mwlSigOf e w s.totalPenalty),
                     mwlPrev := some (mwlEnvOf s e w) },
            { sev := wbgtBandSev eff (A : ℝ) (B : ℝ) (C : ℝ),
              hsp := some (hspValOf s e eff w),
              mwlEnv := some (mwlEnvOf s e w),
              mwlOp := some (mwlOpOf s e w),
              capApplied := some (mwlCapOf e.gt e.ws w),
              instrumentSource := decide (0 < s.twlMeasured),
              finalRisk := hspOverride up (some (hspValOf s e eff w))
                (riskOfSev (wbgtBandSev eff (A : ℝ) (B : ℝ) (C : ℝ))) }) := by
  simp only [block7, h1, h2]

theorem block5B_false (s : State) : block5B s false = (s, false) := by
  simp [block5B]

theorem block5B_true_none (s : State) (h : s.frozen = none) :
    block5B s true = (s, true) := by
  simp [block5B, h]

theorem block5B_true_some (s : State) (w : ℝ) (h : s.frozen = some w) :
    block5B s true =
      ({ s with totalPenalty := totalPenaltyOf s.penClo s.penVeh s.penRad s.penAdhoc,
                wbgtEff := some (w + (totalPenaltyOf s.penClo s.penVeh s.penRad s.penAdhoc : ℝ)),
                penaltiesApplied := true }, false) := by
  simp [block5B, h]

theorem block5_reset (s : State) (e : Env)
    (h : s.envDirty = true ∨ s.prevEnv ≠ some (sig5 e)) :
    block5 s e =
      { s with frozen := some (wbgtRawC e), penaltiesApplied := false,
               totalPenalty := 0, wbgtEff := some (wbgtRawC e),
               prevEnv := some (sig5 e), envDirty := false } := by
  rcases h with h | h <;> simp [block5, h]

theorem block5_noReset_some (s : State) (e : Env) (w : ℝ)
    (hd : s.envDirty = false) (hp : s.prevEnv = some (sig5 e)) (hf : s.frozen = some w) :
    block5 s e = if s.penaltiesApplied then s else { s with wbgtEff := some w } := by
  simp [block5, hd, hp, hf]

theorem block5_noReset_none (s : State) (e : Env)
    (hd : s.envDirty = false) (hp : s.prevEnv = some (sig5 e)) (hf : s.frozen = none) :
    block5 s e = if s.penaltiesApplied
      then { s with frozen := some (wbgtRawC e) }
      else { s with frozen := some (wbgtRawC e), wbgtEff := some (wbgtRawC e) } := by
  simp [block5, hd, hp, hf]

theorem block7_preserves (s : State) (e : Env) (A B C : ℚ) (up : Bool)
    (s2 : State) (o : Out) (h : block7 s e A B C up = some (s2, o)) :
    s2.frozen = s.frozen ∧ s2.wbgtEff = s.wbgtEff ∧ s2.totalPenalty = s.totalPenalty ∧
    s2.penaltiesApplied = s.penaltiesApplied ∧ s2.prevEnv = s.prevEnv ∧
    s2.envDirty = s.envDirty := by
  rcases he : s.wbgtEff with _ | eff
  · rw [block7_none s e A B C up he] at h
    exact absurd h (by simp)
  · rcases hf : s.frozen with _ | w
    · rw [block7_eq_noBaseline s e A B C up eff he hf] at h
      simp only [Option.some.injEq, Prod.mk.injEq] at h
      exact ⟨by rw [← h.1]; exact hf, by rw [← h.1]; exact he, by rw [← h.1],
             by rw [← h.1], by rw [← h.1], by rw [← h.1]⟩
    · rw [block7_eq s e A B C up eff w he hf] at h
      simp only [Option.some.injEq, Prod.mk.injEq] at h
      exact ⟨by rw [← h.1]; exact hf, by rw [← h.1]; exact he, by rw [← h.1],
             by rw [← h.1], by rw [← h.1], by rw [← h.1]⟩

theorem evalStep_fst_fields (s : State) (e : Env) (p1 p2 p3 p4 twl : ℚ) (c a u : Bool) :
    (evalStep s e p1 p2 p3 p4 twl c a u).1.frozen
      = ((block5B (setPens (block5 s e) p1 p2 p3 p4 twl) c).1).frozen ∧
    (evalStep s e p1 p2 p3 p4 twl c a u).1.wbgtEff
      = ((block5B (setPens (block5 s e) p1 p2 p3 p4 twl) c).1).wbgtEff ∧
    (evalStep s e p1 p2 p3 p4 twl c a u).1.totalPenalty
      = ((block5B (setPens (block5 s e) p1 p2 p3 p4 twl) c).1).totalPenalty ∧
    (evalStep s e p1 p2 p3 p4 twl c a u).1.penaltiesApplied
      = ((block5B (setPens (block5 s e) p1 p2 p3 p4 twl) c).1).penaltiesApplied := by
  simp only [evalStep]
  rcases h : block7 ((block5B (setPens (block5 s e) p1 p2 p3 p4 twl) c).1) e
      (thresholds a).1 (thresholds a).2.1 (thresholds a).2.2 u with _ | ⟨s2, o⟩
  · simp [h]
  · have hp := block7_preserves _ _ _ _ _ _ _ _ h
    simp [h, hp.1, hp.2.1, hp.2.2.1, hp.2.2.2.1]

theorem block5B_fst_frozen (s : State) (c : Bool) :
    ((block5B s c).1).frozen = s.frozen := by
  cases c
  · rw [block5B_false]
  · rcases hf : s.frozen with _ | w
    · rw [block5B_true_none s hf]
      exact hf
    · rw [block5B_true_some s w hf]
      exact hf

/-! ### Claim theorems -/

/-- Claim C1: the frozen baseline WBGT is Block 5 state (no later block of
an evaluation changes it); it is held constant, with the penalty total and
the penalties-applied flag untouched, across evaluations whose rounded
3-decimal signature equals the stored one and with no reset flag pending;
it is cleared and replaced with the freshly computed baseline WBGT — with
the accumulated penalty total and the penalties-applied flag cleared at
the same step and the new signature stored — exactly when the signature
changes or the reset flag (`env_dirty`) is set; and an empty frozen value
is set to the freshly computed baseline WBGT. -/
theorem c1_frozen_baseline_state_machine (s : State) (e : Env)
    (p1 p2 p3 p4 twl : ℚ) (clicked accl up : Bool) :
    (evalStep s e p1 p2 p3 p4 twl clicked accl up).1.frozen = (block5 s e).frozen ∧
    (s.envDirty = false → s.prevEnv = some (sig5 e) →
      ∀ w : ℝ, s.frozen = some w →
        (block5 s e).frozen = some w ∧
        (block5 s e).penaltiesApplied = s.penaltiesApplied ∧
        (block5 s e).totalPenalty = s.totalPenalty) ∧
    ((s.envDirty = true ∨ s.prevEnv ≠ some (sig5 e)) →
      (block5 s e).frozen = some (wbgtRawC e) ∧
      (block5 s e).penaltiesApplied = false ∧
      (block5 s e).totalPenalty = 0 ∧
      (block5 s e).prevEnv = some (sig5 e) ∧
      (block5 s e).envDirty = false) ∧
    (s.frozen = none → (block5 s e).frozen = some (wbgtRawC e)) := by
  refine ⟨?_, ?_, ?_, ?_⟩
  · rw [(evalStep_fst_fields s e p1 p2 p3 p4 twl clicked accl up).1,
       block5B_fst_frozen]
    rfl
  · intro hd hp w hf
    rw [block5_noReset_some s e w hd hp hf]
    cases hpa : s.penaltiesApplied <;> simp [hpa, hf]
  · intro hr
    rw [block5_reset s e hr]
    exact ⟨rfl, rfl, rfl, rfl, rfl⟩
  · intro hf
    by_cases hr : s.envDirty = true ∨ s.prevEnv ≠ some (sig5 e)
    · rw [block5_reset s e hr]
    · push_neg at hr
      have hd : s.envDirty = false := by
        rcases hr with ⟨hr1, -⟩
        exact Bool.not_eq_true _ ▸ (by simpa using hr1)
      rw [block5_noReset_none s e hd hr.2 hf]
      cases hpa : s.penaltiesApplied <;> simp [hpa]

/-- Witness for C1 at a concrete mid-assessment state: the signature is
unchanged and no reset is pending, so the frozen baseline 28 is kept. -/
theorem c1_witness :
    stat1.envDirty = false ∧ stat1.prevEnv = some (sig5 env1) ∧
    stat1.frozen = some 28 ∧ (block5 stat1 env1).frozen = some 28 := by
  refine ⟨rfl, rfl, rfl, ?_⟩
  exact ((c1_frozen_baseline_state_machine stat1 env1 0 0 0 0 0 false true
    true).2.1 rfl rfl 28 rfl).1

/-- Claim C2: the total penalty is the sum of the per-category-clamped
deltas capped at 10, hence lies in [0, 10] for any category inputs; while
penalties are not applied the effective WBGT equals the frozen baseline;
an evaluation with the apply action sets the effective WBGT to the frozen
baseline plus the total penalty and marks penalties applied; without an
apply and with an unchanged signature the effective WBGT and total penalty
keep their values; and a signature change (or reset flag) returns the
effective WBGT to the new frozen baseline. -/
theorem c2_effective_wbgt_tracking (s : State) (e : Env) (p1 p2 p3 p4 twl : ℚ)
    (accl up : Bool) :
    (0 ≤ totalPenaltyOf p1 p2 p3 p4 ∧ totalPenaltyOf p1 p2 p3 p4 ≤ 10) ∧
    ((block5 s e).penaltiesApplied = false →
      (block5 s e).wbgtEff = (block5 s e).frozen) ∧
    (∀ w : ℝ, (block5 s e).frozen = some w →
      (evalStep s e p1 p2 p3 p4 twl true accl up).1.wbgtEff
        = some (w + (totalPenaltyOf p1 p2 p3 p4 : ℝ)) ∧
      (evalStep s e p1 p2 p3 p4 twl true accl up).1.totalPenalty
        = totalPenaltyOf p1 p2 p3 p4 ∧
      (evalStep s e p1 p2 p3 p4 twl true accl up).1.penaltiesApplied = true) ∧
    (s.penaltiesApplied = true → s.envDirty = false → s.prevEnv = some (sig5 e) →
      (evalStep s e p1 p2 p3 p4 twl false accl up).1.wbgtEff = s.wbgtEff ∧
      (evalStep s e p1 p2 p3 p4 twl false accl up).1.totalPenalty = s.totalPenalty) ∧
    ((s.envDirty = true ∨ s.prevEnv ≠ some (sig5 e)) →
      (evalStep s e p1 p2 p3 p4 twl false accl up).1.wbgtEff = some (wbgtRawC e)) := by
  refine ⟨⟨?_, ?_⟩, ?_, ?_, ?_, ?_⟩
  · unfold totalPenaltyOf clampQ
    have h1 : (0:ℚ) ≤ min (max p1 0) 3 := le_min (le_max_right _ _) (by norm_num)
    have h2 : (0:ℚ) ≤ min (max p2 0) 3 := le_min (le_max_right _ _) (by norm_num)
    have h3 : (0:ℚ) ≤ min (max p3 0) 5 := le_min (le_max_right _ _) (by norm_num)
    have h4 : (0:ℚ) ≤ min (max p4 0) 4 := le_min (le_max_right _ _) (by norm_num)
    exact le_min (by linarith) (by norm_num)
  · exact min_le_right _ _
  · intro hpa0
    by_cases hr : s.envDirty = true ∨ s.prevEnv ≠ some (sig5 e)
    · rw [block5_reset s e hr]
    · push_neg at hr
      have hd : s.envDirty = false := by
        rcases hr with ⟨hr1, -⟩
        exact Bool.not_eq_true _ ▸ (by simpa using hr1)
      rcases hf : s.frozen with _ | w
      · rw [block5_noReset_none s e hd hr.2 hf] at hpa0 ⊢
        cases hpa : s.penaltiesApplied
        · simp [hpa]
        · simp [hpa] at hpa0
      · rw [block5_noReset_some s e w hd hr.2 hf] at hpa0 ⊢
        cases hpa : s.penaltiesApplied
        · simp [hpa, hf]
        · simp [hpa] at hpa0
  · intro w hw
    have hsf : (setPens (block5 s e) p1 p2 p3 p4 twl).frozen = some w := hw
    refine ⟨?_, ?_, ?_⟩
    · rw [(evalStep_fst_fields s e p1 p2 p3 p4 twl true accl up).2.1,
         block5B_true_some _ w hsf]
      rfl
    · rw [(evalStep_fst_fields s e p1 p2 p3 p4 twl true accl up).2.2.1,
         block5B_true_some _ w hsf]
      rfl
    · rw [(evalStep_fst_fields s e p1 p2 p3 p4 twl true accl up).2.2.2,
         block5B_true_some _ w hsf]
  · intro hpa hd hp
    constructor
    · rw [(evalStep_fst_fields s e p1 p2 p3 p4 twl false accl up).2.1,
         block5B_false]
      rcases hf : s.frozen with _ | w
      · rw [show (setPens (block5 s e) p1 p2 p3 p4 twl).wbgtEff = (block5 s e).wbgtEff from rfl,
           block5_noReset_none s e hd hp hf, hpa]
        simp
      · rw [show (setPens (block5 s e) p1 p2 p3 p4 twl).wbgtEff = (block5 s e).wbgtEff from rfl,
           block5_noReset_some s e w hd hp hf, hpa]
        simp
    · rw [(evalStep_fst_fields s e p1 p2 p3 p4 twl false accl up).2.2.1,
         block5B_false]
      rcases hf : s.frozen with _ | w
      · rw [show (setPens (block5 s e) p1 p2 p3 p4 twl).totalPenalty = (block5 s e).totalPenalty from rfl,
           block5_noReset_none s e hd hp hf, hpa]
        simp
      · rw [show (setPens (block5 s e) p1 p2 p3 p4 twl).totalPenalty = (block5 s e).totalPenalty from rfl,
           block5_noReset_some s e w hd hp hf, hpa]
        simp
  · intro hr
    rw [(evalStep_fst_fields s e p1 p2 p3 p4 twl false accl up).2.1,
       block5B_false,
       show (setPens (block5 s e) p1 p2 p3 p4 twl).wbgtEff = (block5 s e).wbgtEff from rfl,
       block5_reset s e hr]

/-- Witness for C2 at concrete inputs: total penalty 2 in range, and an
apply on the 28 degC frozen baseline yields effective WBGT 28 + 2. -/
theorem c2_witness :
    (0 ≤ totalPenaltyOf 2 0 0 0 ∧ totalPenaltyOf 2 0 0 0 ≤ 10) ∧
    (block5 stat1 env1).frozen = some 28 ∧
    (evalStep stat1 env1 2 0 0 0 200 true true true).1.wbgtEff
      = some (28 + (totalPenaltyOf 2 0 0 0 : ℝ)) := by
  have hf : (block5 stat1 env1).frozen = some 28 := by
    simp [block5, stat1, initState]
  exact ⟨(c2_effective_wbgt_tracking stat1 env1 2 0 0 0 200 true true).1, hf,
    ((c2_effective_wbgt_tracking stat1 env1 2 0 0 0 200 true true).2.2.1 28 hf).1⟩

theorem mwlEnvOf_le_mem (s : State) (e : Env) (w p : ℝ)
    (hsig : s.mwlSig = some (mwlSigOf e w s.totalPenalty))
    (hprev : s.mwlPrev = some p) :
    mwlEnvOf s e w ≤ p := by
  unfold mwlEnvOf prevMemOf
  rw [if_pos hsig, hprev]
  exact (min_le_right _ _).trans (min_le_right _ _)

theorem mwlEnvOf_fresh (s : State) (e : Env) (w : ℝ)
    (hne : s.mwlSig ≠ some (mwlSigOf e w s.totalPenalty)) :
    mwlEnvOf s e w = min (rawOf s e w) (mwlCapOf e.gt e.ws w) := by
  unfold mwlEnvOf prevMemOf
  rw [if_neg hne,
     min_eq_left ((mwlCapOf_le_280 e.gt e.ws w).trans (by norm_num))]

theorem block7_ratchet_step (s1 : State) (e2 : Env) (A2 B2 C2 : ℚ) (up2 : Bool)
    (s2 : State) (o2 : Out) (hb : block7 s1 e2 A2 B2 C2 up2 = some (s2, o2))
    (eff w m : ℝ) (h1 : s1.wbgtEff = some eff) (h2 : s1.frozen = some w)
    (hsig : s1.mwlSig = some (mwlSigOf e2 w s1.totalPenalty))
    (hprev : s1.mwlPrev = some m)
    (m2 : ℝ) (hm2 : o2.mwlEnv = some m2) : m2 ≤ m := by
  rw [block7_eq s1 e2 A2 B2 C2 up2 eff w h1 h2] at hb
  simp only [Option.some.injEq, Prod.mk.injEq] at hb
  obtain ⟨-, ho⟩ := hb
  rw [← ho] at hm2
  simp only [Option.some.injEq] at hm2
  rw [← hm2]
  exact mwlEnvOf_le_mem s1 e2 w m hsig hprev

/-- Claim C9: invoking the apply action with no frozen baseline surfaces the
BaselineUnavailable error and changes nothing: the effective WBGT, total
penalty and penalties-applied flag keep their values; and Block 7 produces
no HSP, environmental or operational capacity from a state with no frozen
baseline. -/
theorem c9_baseline_unavailable (s : State) (e : Env) (A B C : ℚ) (up : Bool)
    (h : s.frozen = none) :
    block5B s true = (s, true) ∧
    ((block5B s true).1).wbgtEff = s.wbgtEff ∧
    ((block5B s true).1).totalPenalty = s.totalPenalty ∧
    ((block5B s true).1).penaltiesApplied = s.penaltiesApplied ∧
    (∀ s2 o, block7 s e A B C up = some (s2, o) →
      o.hsp = none ∧ o.mwlOp = none ∧ o.mwlEnv = none) := by
  have hb := block5B_true_none s h
  refine ⟨hb, by rw [hb], by rw [hb], by rw [hb], ?_⟩
  intro s2 o ho
  rcases he : s.wbgtEff with _ | eff
  · rw [block7_none s e A B C up he] at ho
    exact absurd ho (by simp)
  · rw [block7_eq_noBaseline s e A B C up eff he h] at ho
    simp only [Option.some.injEq, Prod.mk.injEq] at ho
    obtain ⟨-, h2⟩ := ho
    rw [← h2]
    exact ⟨rfl, rfl, rfl⟩

/-- Witness for C9 at the initial session state, which has no frozen
baseline: the apply action errors and returns the state unchanged. -/
theorem c9_witness :
    initState.frozen = none ∧ block5B initState true = (initState, true) :=
  ⟨rfl, (c9_baseline_unavailable initState env1 29 32 35 true rfl).1⟩

/-- Claim C8: operational capacity is `max(60, env - loss)` with
`loss = 18*ppe + 12*veh + 10*rad + 8*adhoc` on penalty terms floored at 0,
hence is at least 60 for every input; and Block 7 computes it from the
live stored category values, not the per-category-clamped ones used for
the effective WBGT. -/
theorem c8_operational_capacity (s : State) (e : Env) (A B C : ℚ) (up : Bool) :
    (∀ (mwlEnv : ℝ) (p1 p2 p3 p4 : ℚ),
      apply_capacity_penalties mwlEnv p1 p2 p3 p4
        = max 60 (mwlEnv - (18 * max 0 (p1 : ℝ) + 12 * max 0 (p2 : ℝ)
            + 10 * max 0 (p3 : ℝ) + 8 * max 0 (p4 : ℝ))) ∧
      60 ≤ apply_capacity_penalties mwlEnv p1 p2 p3 p4) ∧
    (∀ eff w : ℝ, s.wbgtEff = some eff → s.frozen = some w →
      ∃ s2 o, block7 s e A B C up = some (s2, o) ∧
        ∃ m, o.mwlEnv = some m ∧
          o.mwlOp = some (apply_capacity_penalties m
            s.penClo s.penVeh s.penRad s.penAdhoc)) := by
  refine ⟨fun mwlEnv p1 p2 p3 p4 => ⟨rfl, le_max_left _ _⟩, ?_⟩
  intro eff w he hf
  exact ⟨_, _, block7_eq s e A B C up eff w he hf, mwlEnvOf s e w, rfl, rfl⟩

/-- Witness for C8 at concrete inputs: the floor at 60 on a concrete call,
and the operational-capacity wiring on a concrete evaluation. -/
theorem c8_witness :
    (60 : ℝ) ≤ apply_capacity_penalties 200 0 0 0 0 ∧
    stat1.wbgtEff = some 28 ∧ stat1.frozen = some 28 ∧
    ∃ s2 o, block7 stat1 env1 29 32 35 true = some (s2, o) ∧
      ∃ m, o.mwlEnv = some m ∧
        o.mwlOp = some (apply_capacity_penalties m
          stat1.penClo stat1.penVeh stat1.penRad stat1.penAdhoc) := by
  refine ⟨((c8_operational_capacity stat1 env1 29 32 35 true).1 200 0 0 0 0).2,
    rfl, rfl, ?_⟩
  exact (c8_operational_capacity stat1 env1 29 32 35 true).2 28 28 rfl rfl

/-- Claim C3: the Block 7 capacity ratchet. On an evaluation with a frozen
baseline, the reported environmental capacity is stored as the new memory
with the current signature; while the incoming stored signature equals the
current one the reported capacity is at most the stored memory; when it
differs the capacity is exactly `min(raw, cap)` with a fresh raw and cap,
unconstrained by the previous memory; hence across two consecutive
evaluations whose signatures agree, the later capacity is at most the
earlier one. -/
theorem c3_capacity_ratchet (s : State) (e : Env) (A B C : ℚ) (up : Bool)
    (eff w : ℝ) (h1 : s.wbgtEff = some eff) (h2 : s.frozen = some w) :
    ∃ s1 o1, block7 s e A B C up = some (s1, o1) ∧
      ∃ m, o1.mwlEnv = some m ∧ s1.mwlPrev = some m ∧
        s1.mwlSig = some (mwlSigOf e w s.totalPenalty) ∧
        (∀ p, s.mwlSig = some (mwlSigOf e w s.totalPenalty) →
          s.mwlPrev = some p → m ≤ p) ∧
        (s.mwlSig ≠ some (mwlSigOf e w s.totalPenalty) →
          m = min (rawOf s e w) (mwlCapOf e.gt e.ws w)) ∧
        (∀ (e2 : Env) (A2 B2 C2 : ℚ) (up2 : Bool) (s2 : State) (o2 : Out) (m2 : ℝ),
          block7 s1 e2 A2 B2 C2 up2 = some (s2, o2) →
          mwlSigOf e2 w s1.totalPenalty = mwlSigOf e w s.totalPenalty →
          o2.mwlEnv = some m2 → m2 ≤ m) := by
  refine ⟨_, _, block7_eq s e A B C up eff w h1 h2, mwlEnvOf s e w, rfl, rfl, rfl,
    ?_, ?_, ?_⟩
  · intro p hsig hprev
    exact mwlEnvOf_le_mem s e w p hsig hprev
  · intro hne
    exact mwlEnvOf_fresh s e w hne
  · intro e2 A2 B2 C2 up2 s2 o2 m2 hb hsig hm2
    exact block7_ratchet_step _ e2 A2 B2 C2 up2 s2 o2 hb eff w
      (mwlEnvOf s e w) h1 h2 (congrArg some hsig.symm) rfl m2 hm2

/-- Witness for C3 at a concrete mid-assessment state with a frozen
baseline: the ratchet step produces a capacity and stores it as memory. -/
theorem c3_witness :
    stat1.wbgtEff = some 28 ∧ stat1.frozen = some 28 ∧
    ∃ s1 o1, block7 stat1 env1 29 32 35 true = some (s1, o1) ∧
      ∃ m, o1.mwlEnv = some m ∧ s1.mwlPrev = some m := by
  refine ⟨rfl, rfl, ?_⟩
  obtain ⟨s1, o1, hb, m, hm, hp, -⟩ :=
    c3_capacity_ratchet stat1 env1 29 32 35 true 28 28 rfl rfl
  exact ⟨s1, o1, hb, m, hm, hp⟩

/-- Claim C6: with globe temperature at least 50 and wind below 0.5, the
first rule of the cap table fires, the cap applied is 115 W/m2, the
environmental capacity cannot exceed 115 regardless of the raw model
output, and a positive instrument reading is tagged as the capacity
source while the same cap applies. -/
theorem c6_cap_115 (s : State) (e : Env) (A B C : ℚ) (up : Bool) (eff w : ℝ)
    (h1 : s.wbgtEff = some eff) (h2 : s.frozen = some w)
    (hg : 50 ≤ e.gt) (hw : e.ws < 0.5) :
    mwlCapOf e.gt e.ws w = 115 ∧
    ∃ s1 o, block7 s e A B C up = some (s1, o) ∧
      o.capApplied = some 115 ∧
      (∀ m, o.mwlEnv = some m → m ≤ 115) ∧
      (0 < s.twlMeasured → o.instrumentSource = true) := by
  have hcap : mwlCapOf e.gt e.ws w = 115 := by
    unfold mwlCapOf
    rw [if_pos ⟨hg, hw⟩]
  refine ⟨hcap, _, _, block7_eq s e A B C up eff w h1 h2,
    congrArg some hcap, ?_, ?_⟩
  · intro m hm
    simp only [Option.some.injEq] at hm
    rw [← hm]
    unfold mwlEnvOf
    calc min (rawOf s e w) (min (mwlCapOf e.gt e.ws w) (prevMemOf s e w))
        ≤ min (mwlCapOf e.gt e.ws w) (prevMemOf s e w) := min_le_right _ _
      _ ≤ mwlCapOf e.gt e.ws w := min_le_left _ _
      _ = 115 := hcap
  · intro ht
    exact decide_eq_true ht

/-- Witness for C6 on a concrete extreme reading (globe 55, wind 0.2) with
an instrument capacity entered: the cap applied is 115. -/
theorem c6_witness :
    (50 ≤ env6.gt ∧ env6.ws < 0.5) ∧ mwlCapOf env6.gt env6.ws 28 = 115 ∧
    ∃ s1 o, block7 stat1 env6 29 32 35 true = some (s1, o) ∧
      o.capApplied = some 115 ∧ o.instrumentSource = true := by
  have hg : (50 : ℚ) ≤ env6.gt := by norm_num [env6]
  have hw : env6.ws < 0.5 := by norm_num [env6]
  obtain ⟨hcap, s1, o, hb, hca, -, hi⟩ :=
    c6_cap_115 stat1 env6 29 32 35 true 28 28 rfl rfl hg hw
  exact ⟨⟨hg, hw⟩, hcap, s1, o, hb, hca, hi (by norm_num [stat1, initState])⟩

theorem evalStep_out (s : State) (e : Env) (p1 p2 p3 p4 twl : ℚ) (c a u : Bool)
    (s2 : State) (o : Out)
    (h : block7 ((block5B (setPens (block5 s e) p1 p2 p3 p4 twl) c).1) e
        (thresholds a).1 (thresholds a).2.1 (thresholds a).2.2 u = some (s2, o)) :
    evalStep s e p1 p2 p3 p4 twl c a u
      = (s2, (block5B (setPens (block5 s e) p1 p2 p3 p4 twl) c).2, some o) := by
  simp only [evalStep, h]

theorem stullWb_rh0 (t : ℝ) : stullWb t 0 =
    t * Real.arctan (0.151977 * Real.sqrt 8.313659)
      + Real.arctan t + Real.arctan 1.676331 - 4.686035 := by
  unfold stullWb
  rw [show ((0:ℝ) + 8.313659) = 8.313659 by norm_num, add_zero,
      show ((0:ℝ) - 1.676331) = -(1.676331 : ℝ) by norm_num,
      Real.arctan_neg,
      show (0.023101 * (0:ℝ)) = 0 by norm_num,
      Real.arctan_zero,
      Real.zero_rpow (by norm_num : (1.5:ℝ) ≠ 0)]
  ring

theorem stull_k_nonneg : 0 ≤ Real.arctan (0.151977 * Real.sqrt 8.313659) :=
  arctan_nonneg_of_nonneg (mul_nonneg (by norm_num) (Real.sqrt_nonneg _))

theorem stull_k_le :
    Real.arctan (0.151977 * Real.sqrt 8.313659) ≤ 0.151977 * 2.8834 := by
  have hs : Real.sqrt 8.313659 ≤ 2.8834 := by
    rw [show (2.8834:ℝ) = Real.sqrt (2.8834 ^ 2) from (Real.sqrt_sq (by norm_num)).symm]
    exact Real.sqrt_le_sqrt (by norm_num)
  calc Real.arctan (0.151977 * Real.sqrt 8.313659)
      ≤ 0.151977 * Real.sqrt 8.313659 :=
        arctan_le_self_of_nonneg (mul_nonneg (by norm_num) (Real.sqrt_nonneg _))
    _ ≤ 0.151977 * 2.8834 := mul_le_mul_of_nonneg_left hs (by norm_num)

/-- Claim C10 (amended): for every non-negative dry-bulb temperature t, the
Stull natural wet-bulb at RH = 0 is at most t. -/
theorem c10_wetbulb_ceiling (t : ℝ) (ht : 0 ≤ t) : stullWb t 0 ≤ t := by
  rw [stullWb_rh0]
  have hk1 := stull_k_le
  have h1 : Real.arctan t < Real.pi / 2 := Real.arctan_lt_pi_div_two t
  have h2 : Real.arctan 1.676331 < Real.pi / 2 := Real.arctan_lt_pi_div_two _
  have hpi : Real.pi < 3.15 := Real.pi_lt_d2
  have htk : t * Real.arctan (0.151977 * Real.sqrt 8.313659) ≤ t :=
    mul_le_of_le_one_right ht (hk1.trans (by norm_num))
  linarith

/-- Witness for C10 at dry-bulb 30 degC. -/
theorem c10_witness : (0:ℝ) ≤ 30 ∧ stullWb 30 0 ≤ 30 :=
  ⟨by norm_num, c10_wetbulb_ceiling 30 (by norm_num)⟩

/-- Counterexample to C10 as stated over every dry-bulb temperature: at
dry-bulb -12 degC and RH 0, the Stull formula exceeds the dry-bulb. -/
theorem c10_counterexample : ¬ stullWb (-12) 0 ≤ -12 := by
  rw [stullWb_rh0, not_le]
  have hk1 := stull_k_le
  have h12 : Real.arctan 12 < Real.pi / 2 := Real.arctan_lt_pi_div_two 12
  have h167 : Real.pi / 2 - 0.5966 ≤ Real.arctan 1.676331 := by
    have hinv := Real.arctan_inv_of_pos (show (0:ℝ) < 1.676331 by norm_num)
    have hle : Real.arctan ((1.676331:ℝ)⁻¹) ≤ (1.676331:ℝ)⁻¹ :=
      arctan_le_self_of_nonneg (by norm_num)
    have hiv : ((1.676331:ℝ))⁻¹ ≤ 0.5966 := by norm_num
    linarith
  have hneg : Real.arctan (-12 : ℝ) = - Real.arctan 12 := by
    rw [show (-12:ℝ) = -(12:ℝ) by norm_num, Real.arctan_neg]
  rw [hneg]
  linarith

theorem wbgtRawC_coldEnv_neg : wbgtRawC coldEnv < 0 := by
  have hstull : stullWb (-50 : ℝ) 0 < 0 := by
    rw [stullWb_rh0]
    have hk0 := stull_k_nonneg
    have h1 : Real.arctan (-50 : ℝ) < Real.pi / 2 := Real.arctan_lt_pi_div_two _
    have h2 : Real.arctan 1.676331 < Real.pi / 2 := Real.arctan_lt_pi_div_two _
    have hpi : Real.pi < 3.15 := Real.pi_lt_d2
    have h50 : (-50:ℝ) * Real.arctan (0.151977 * Real.sqrt 8.313659) ≤ 0 := by
      nlinarith [hk0]
    linarith
  have hgt : gtAdjC (-50 : ℝ) (-50 : ℝ) 1 = -50 := by
    unfold gtAdjC
    rw [sub_self, zero_mul, add_zero]
  have hcast : wbgtRawC coldEnv
      = 0.7 * stullWb (-50) 0 + 0.2 * gtAdjC (-50) (-50) 1 + 0.1 * (-50) := by
    unfold wbgtRawC
    norm_num [coldEnv]
  rw [hcast, hgt]
  linarith

/-- Claim C5 (amended): from any state with an effective WBGT and a frozen
baseline, Block 7 produces HSP exactly `(eff * 200) / (max(1, mwl_op) * 30)`
from the operational capacity, and this HSP is non-negative whenever the
effective WBGT is non-negative (the denominator is always positive). -/
theorem c5_hsp_formula (s : State) (e : Env) (A B C : ℚ) (up : Bool)
    (eff w : ℝ) (h1 : s.wbgtEff = some eff) (h2 : s.frozen = some w) :
    ∃ s1 o, block7 s e A B C up = some (s1, o) ∧
      ∃ mop, o.mwlOp = some mop ∧
        o.hsp = some ((eff * 200) / (max 1 mop * 30)) ∧
        (0 ≤ eff → 0 ≤ (eff * 200) / (max 1 mop * 30)) := by
  refine ⟨_, _, block7_eq s e A B C up eff w h1 h2, mwlOpOf s e w, rfl, rfl, ?_⟩
  intro he
  exact div_nonneg (mul_nonneg he (by norm_num))
    (mul_nonneg ((by norm_num : (0:ℝ) ≤ 1).trans (le_max_left _ _)) (by norm_num))

/-- Witness for C5 at a concrete mid-assessment state. -/
theorem c5_witness :
    stat1.wbgtEff = some 28 ∧ stat1.frozen = some 28 ∧
    ∃ s1 o, block7 stat1 env1 29 32 35 true = some (s1, o) ∧
      ∃ mop, o.mwlOp = some mop ∧
        o.hsp = some (((28:ℝ) * 200) / (max 1 mop * 30)) := by
  refine ⟨rfl, rfl, ?_⟩
  obtain ⟨s1, o, hb, mop, hm, hh, -⟩ :=
    c5_hsp_formula stat1 env1 29 32 35 true 28 28 rfl rfl
  exact ⟨s1, o, hb, mop, hm, hh⟩

/-- Counterexample to the unconditional non-negativity in C5: starting from
the initial session on a sub-zero reading (dry-bulb and globe -50 degC, dry
air), the evaluation produces a negative HSP, because the frozen baseline
WBGT (hence the effective WBGT) is negative. -/
theorem c5_counterexample :
    ∃ st err o, evalStep initState coldEnv 0 0 0 0 200 false true true
        = (st, err, some o) ∧ ∃ h, o.hsp = some h ∧ h < 0 := by
  have hr : initState.envDirty = true ∨ initState.prevEnv ≠ some (sig5 coldEnv) :=
    Or.inr (by simp [initState])
  have hb5 := block5_reset initState coldEnv hr
  have hsB : (block5B (setPens (block5 initState coldEnv) 0 0 0 0 200) false).1
      = setPens (block5 initState coldEnv) 0 0 0 0 200 := by
    rw [block5B_false]
  have h1 : (setPens (block5 initState coldEnv) 0 0 0 0 200).wbgtEff
      = some (wbgtRawC coldEnv) := by
    show (block5 initState coldEnv).wbgtEff = some (wbgtRawC coldEnv)
    rw [hb5]
  have h2 : (setPens (block5 initState coldEnv) 0 0 0 0 200).frozen
      = some (wbgtRawC coldEnv) := by
    show (block5 initState coldEnv).frozen = some (wbgtRawC coldEnv)
    rw [hb5]
  have hb7 := block7_eq ((block5B (setPens (block5 initState coldEnv) 0 0 0 0 200) false).1)
      coldEnv (thresholds true).1 (thresholds true).2.1 (thresholds true).2.2 true
      (wbgtRawC coldEnv) (wbgtRawC coldEnv) (by rw [hsB]; exact h1) (by rw [hsB]; exact h2)
  have hev := evalStep_out initState coldEnv 0 0 0 0 200 false true true _ _ hb7
  rw [hev]
  refine ⟨_, _, _, rfl, _, rfl, ?_⟩
  unfold hspValOf
  apply div_neg_of_neg_of_pos
  · have := wbgtRawC_coldEnv_neg
    nlinarith
  · have hmax : (0:ℝ) < max 1 (mwlOpOf ((block5B (setPens (block5 initState coldEnv)
        0 0 0 0 200) false).1) coldEnv (wbgtRawC coldEnv)) :=
      lt_of_lt_of_le one_pos (le_max_left _ _)
    nlinarith

theorem hspOverride_cases (h : ℝ) (r : Risk) :
    (1.30 ≤ h → hspOverride true (some h) r = Risk.WITHDRAWAL) ∧
    (1.00 ≤ h → h < 1.30 → (r = Risk.LOW ∨ r = Risk.CAUTION) →
      hspOverride true (some h) r = Risk.HIGH_STRAIN) ∧
    (0.80 ≤ h → h < 1.00 → r = Risk.LOW →
      hspOverride true (some h) r = Risk.CAUTION) ∧
    (h < 0.80 → hspOverride true (some h) r = r) := by
  simp only [hspOverride]
  refine ⟨?_, ?_, ?_, ?_⟩
  · intro hh
    rw [if_pos trivial, if_pos hh]
  · intro hh1 hh2 hr
    rw [if_pos trivial, if_neg (not_le.mpr hh2), if_pos ⟨hh1, hr⟩]
  · intro hh1 hh2 hr
    rw [if_pos trivial, if_neg (not_le.mpr (by linarith)),
        if_neg (fun hx => absurd hx.1 (not_le.mpr hh2)),
        if_pos ⟨hh1, hh2, hr⟩]
  · intro hh
    rw [if_pos trivial, if_neg (not_le.mpr (by linarith)),
        if_neg (fun hx => absurd hx.1 (not_le.mpr (by linarith))),
        if_neg (fun hx => absurd hx.1 (not_le.mpr (by linarith)))]

theorem hspOverride_sev_mono (up2 : Bool) (hs : Option ℝ) (r : Risk) :
    r.sev ≤ (hspOverride up2 hs r).sev := by
  rcases hs with _ | h
  · simp [hspOverride]
  · cases up2
    · simp [hspOverride]
    · simp only [hspOverride, if_true]
      split_ifs with hc1 hc2 hc3
      · cases r <;> decide
      · rcases hc2.2 with rfl | rfl <;> decide
      · rw [hc3.2.2]
        decide
      · exact le_refl _

/-- Claim C4 (amended): with the HSP cross-check enabled (the checkbox
default), the final risk equals the WBGT band escalated by the HSP
override rule — 1.30 and above forces WITHDRAWAL, 1.00 and above escalates
LOW or CAUTION to HIGH STRAIN, 0.80 up to 1.00 escalates LOW to CAUTION,
below 0.80 nothing fires; the band itself is the sequential threshold
chain with the C cut-point inclusive into WITHDRAWAL; and for any
configuration the final risk is never strictly below the WBGT band. -/
theorem c4_risk_resolution (s : State) (e : Env) (A B C : ℚ) (eff : ℝ)
    (h1 : s.wbgtEff = some eff) :
    (∀ s1 o, block7 s e A B C true = some (s1, o) →
      o.sev = wbgtBandSev eff (A : ℝ) (B : ℝ) (C : ℝ) ∧
      o.sev ≤ (o.finalRisk).sev ∧
      (∀ h, o.hsp = some h →
        o.finalRisk = hspOverride true (some h) (riskOfSev o.sev) ∧
        (1.30 ≤ h → o.finalRisk = Risk.WITHDRAWAL) ∧
        (1.00 ≤ h → h < 1.30 →
          (riskOfSev o.sev = Risk.LOW ∨ riskOfSev o.sev = Risk.CAUTION) →
          o.finalRisk = Risk.HIGH_STRAIN) ∧
        (0.80 ≤ h → h < 1.00 → riskOfSev o.sev = Risk.LOW →
          o.finalRisk = Risk.CAUTION) ∧
        (h < 0.80 → o.finalRisk = riskOfSev o.sev))) ∧
    ((eff < (A : ℝ) → wbgtBandSev eff (A : ℝ) (B : ℝ) (C : ℝ) = 0) ∧
     ((A : ℝ) ≤ eff → eff < (B : ℝ) →
        wbgtBandSev eff (A : ℝ) (B : ℝ) (C : ℝ) = 1) ∧
     ((A : ℝ) ≤ eff → (B : ℝ) ≤ eff → eff < (C : ℝ) →
        wbgtBandSev eff (A : ℝ) (B : ℝ) (C : ℝ) = 2) ∧
     ((A : ℝ) ≤ eff → (B : ℝ) ≤ eff → (C : ℝ) ≤ eff →
        wbgtBandSev eff (A : ℝ) (B : ℝ) (C : ℝ) = 3)) ∧
    (∀ (up2 : Bool) (hs : Option ℝ) (r : Risk),
      r.sev ≤ (hspOverride up2 hs r).sev) := by
  have hband : ∀ n : ℕ, n ≤ 3 → (riskOfSev n).sev = n := by
    intro n hn
    interval_cases n <;> rfl
  have hb3 : ∀ eA eB eC : ℝ, wbgtBandSev eff eA eB eC ≤ 3 := by
    intro eA eB eC
    unfold wbgtBandSev
    split_ifs <;> norm_num
  refine ⟨?_, ⟨?_, ?_, ?_, ?_⟩, fun up2 hs r => hspOverride_sev_mono up2 hs r⟩
  · intro s1 o hb
    rcases hf : s.frozen with _ | w
    · rw [block7_eq_noBaseline s e A B C true eff h1 hf] at hb
      simp only [Option.some.injEq, Prod.mk.injEq] at hb
      obtain ⟨-, ho⟩ := hb
      refine ⟨by rw [← ho], ?_, ?_⟩
      · rw [← ho]
        show wbgtBandSev eff (A : ℝ) (B : ℝ) (C : ℝ)
          ≤ (hspOverride true none (riskOfSev (wbgtBandSev eff (A : ℝ) (B : ℝ) (C : ℝ)))).sev
        calc wbgtBandSev eff (A : ℝ) (B : ℝ) (C : ℝ)
            = (riskOfSev (wbgtBandSev eff (A : ℝ) (B : ℝ) (C : ℝ))).sev :=
              (hband _ (hb3 _ _ _)).symm
          _ ≤ _ := hspOverride_sev_mono true none _
      · intro h hh
        rw [← ho] at hh
        exact absurd hh (by simp)
    · rw [block7_eq s e A B C true eff w h1 hf] at hb
      simp only [Option.some.injEq, Prod.mk.injEq] at hb
      obtain ⟨-, ho⟩ := hb
      refine ⟨by rw [← ho], ?_, ?_⟩
      · rw [← ho]
        show wbgtBandSev eff (A : ℝ) (B : ℝ) (C : ℝ)
          ≤ (hspOverride true (some (hspValOf s e eff w))
              (riskOfSev (wbgtBandSev eff (A : ℝ) (B : ℝ) (C : ℝ)))).sev
        calc wbgtBandSev eff (A : ℝ) (B : ℝ) (C : ℝ)
            = (riskOfSev (wbgtBandSev eff (A : ℝ) (B : ℝ) (C : ℝ))).sev :=
              (hband _ (hb3 _ _ _)).symm
          _ ≤ _ := hspOverride_sev_mono true _ _
      · intro h hh
        rw [← ho] at hh ⊢
        simp only [Option.some.injEq] at hh
        subst hh
        refine ⟨rfl, ?_, ?_, ?_, ?_⟩
        · intro hx
          exact (hspOverride_cases _ _).1 hx
        · intro hx1 hx2 hx3
          exact (hspOverride_cases _ _).2.1 hx1 hx2 hx3
        · intro hx1 hx2 hx3
          exact (hspOverride_cases _ _).2.2.1 hx1 hx2 hx3
        · intro hx
          exact (hspOverride_cases _ _).2.2.2 hx
  · intro hlt
    unfold wbgtBandSev
    rw [if_pos hlt]
  · intro hA hlt
    unfold wbgtBandSev
    rw [if_neg (not_lt.mpr hA), if_pos hlt]
  · intro hA hB hlt
    unfold wbgtBandSev
    rw [if_neg (not_lt.mpr hA), if_neg (not_lt.mpr hB), if_pos hlt]
  · intro hA hB hC
    unfold wbgtBandSev
    rw [if_neg (not_lt.mpr hA), if_neg (not_lt.mpr hB), if_neg (not_lt.mpr hC)]

/-- Witness for C4 at a concrete evaluation with effective WBGT 28 and
thresholds 29/32/35: the band severity is reported and bounds the final
risk from below. -/
theorem c4_witness :
    stat1.wbgtEff = some 28 ∧
    ∃ s1 o, block7 stat1 env1 29 32 35 true = some (s1, o) ∧
      o.sev = wbgtBandSev 28 ((29:ℚ):ℝ) ((32:ℚ):ℝ) ((35:ℚ):ℝ) ∧
      o.sev ≤ (o.finalRisk).sev := by
  refine ⟨rfl, ?_⟩
  have hb := block7_eq stat1 env1 29 32 35 true 28 28 rfl rfl
  obtain ⟨hsev, hmono, -⟩ :=
    (c4_risk_resolution stat1 env1 29 32 35 28 rfl).1 _ _ hb
  exact ⟨_, _, hb, hsev, hmono⟩


theorem stat4_mwlEnv : mwlEnvOf stat4 env1 (20:ℝ) = 200 := by
  rw [mwlEnvOf_fresh stat4 env1 20 (by simp [stat4, initState])]
  have hraw : rawOf stat4 env1 (20:ℝ) = 200 := by
    unfold rawOf
    rw [if_pos (show (0:ℚ) < stat4.twlMeasured by norm_num [stat4, initState])]
    norm_num [stat4, initState]
  have hcap : mwlCapOf env1.gt env1.ws (20:ℝ) = 280 := by
    unfold mwlCapOf
    rw [if_neg (by norm_num [env1]), if_neg (by norm_num [env1]),
        if_neg (by norm_num), if_neg (by norm_num)]
  rw [hraw, hcap, min_eq_left (by norm_num : (200:ℝ) ≤ 280)]

theorem stat4_mwlOp : mwlOpOf stat4 env1 (20:ℝ) = 60 := by
  unfold mwlOpOf apply_capacity_penalties
  rw [stat4_mwlEnv]
  norm_num [stat4, initState, max_def]

theorem stat4_hsp : hspValOf stat4 env1 (20:ℝ) (20:ℝ) = 20/9 := by
  unfold hspValOf
  rw [stat4_mwlOp]
  norm_num [max_def]

/-- Counterexample to C4 as stated: when the user disables the HSP
cross-check (the `use_phys` checkbox), an evaluation with HSP above 1.30
(here 20/9) and a LOW band keeps final risk LOW instead of the claimed
forced WITHDRAWAL. -/
theorem c4_counterexample :
    ∃ s1 o, block7 stat4 env1 29 32 35 false = some (s1, o) ∧
      ∃ h, o.hsp = some h ∧ 1.30 ≤ h ∧ o.finalRisk = Risk.LOW := by
  refine ⟨_, _, block7_eq stat4 env1 29 32 35 false 20 20 rfl rfl,
    hspValOf stat4 env1 20 20, rfl, ?_, ?_⟩
  · rw [stat4_hsp]
    norm_num
  · show hspOverride false (some (hspValOf stat4 env1 20 20))
      (riskOfSev (wbgtBandSev 20 ((29:ℚ):ℝ) ((32:ℚ):ℝ) ((35:ℚ):ℝ))) = Risk.LOW
    have hband : wbgtBandSev (20:ℝ) ((29:ℚ):ℝ) ((32:ℚ):ℝ) ((35:ℚ):ℝ) = 0 := by
      unfold wbgtBandSev
      rw [if_pos (by push_cast; norm_num)]
    rw [hband]
    simp [hspOverride, riskOfSev]

/-- Claim C7 (amended): across evaluations without an apply click, changing
the category selections leaves the effective WBGT, the stored total
penalty, the frozen baseline, the WBGT band severity and the environmental
capacity unchanged; the operational capacity and HSP, however, are
recomputed from the live selections on every evaluation and are not
insulated from selection changes (see the counterexample). -/
theorem c7_selection_consumption (s : State) (e : Env)
    (p1 p2 p3 p4 q1 q2 q3 q4 twl : ℚ) (accl up : Bool) :
    (evalStep s e p1 p2 p3 p4 twl false accl up).1.wbgtEff
      = (evalStep s e q1 q2 q3 q4 twl false accl up).1.wbgtEff ∧
    (evalStep s e p1 p2 p3 p4 twl false accl up).1.totalPenalty
      = (evalStep s e q1 q2 q3 q4 twl false accl up).1.totalPenalty ∧
    (evalStep s e p1 p2 p3 p4 twl false accl up).1.frozen
      = (evalStep s e q1 q2 q3 q4 twl false accl up).1.frozen ∧
    Option.map Out.sev (evalStep s e p1 p2 p3 p4 twl false accl up).2.2
      = Option.map Out.sev (evalStep s e q1 q2 q3 q4 twl false accl up).2.2 ∧
    Option.map Out.mwlEnv (evalStep s e p1 p2 p3 p4 twl false accl up).2.2
      = Option.map Out.mwlEnv (evalStep s e q1 q2 q3 q4 twl false accl up).2.2 := by
  refine ⟨?_, ?_, ?_, ?_, ?_⟩
  · rw [(evalStep_fst_fields s e p1 p2 p3 p4 twl false accl up).2.1,
        (evalStep_fst_fields s e q1 q2 q3 q4 twl false accl up).2.1,
        block5B_false, block5B_false]
    rfl
  · rw [(evalStep_fst_fields s e p1 p2 p3 p4 twl false accl up).2.2.1,
        (evalStep_fst_fields s e q1 q2 q3 q4 twl false accl up).2.2.1,
        block5B_false, block5B_false]
    rfl
  · rw [(evalStep_fst_fields s e p1 p2 p3 p4 twl false accl up).1,
        (evalStep_fst_fields s e q1 q2 q3 q4 twl false accl up).1,
        block5B_fst_frozen, block5B_fst_frozen]
    rfl
  · simp only [evalStep, block5B_false]
    rcases he : (block5 s e).wbgtEff with _ | eff
    · rw [block7_none (setPens (block5 s e) p1 p2 p3 p4 twl) e _ _ _ up he,
          block7_none (setPens (block5 s e) q1 q2 q3 q4 twl) e _ _ _ up he]
    · rcases hf : (block5 s e).frozen with _ | w
      · rw [block7_eq_noBaseline (setPens (block5 s e) p1 p2 p3 p4 twl) e _ _ _ up eff he hf,
            block7_eq_noBaseline (setPens (block5 s e) q1 q2 q3 q4 twl) e _ _ _ up eff he hf]
      · rw [block7_eq (setPens (block5 s e) p1 p2 p3 p4 twl) e _ _ _ up eff w he hf,
            block7_eq (setPens (block5 s e) q1 q2 q3 q4 twl) e _ _ _ up eff w he hf]
        rfl
  · simp only [evalStep, block5B_false]
    rcases he : (block5 s e).wbgtEff with _ | eff
    · rw [block7_none (setPens (block5 s e) p1 p2 p3 p4 twl) e _ _ _ up he,
          block7_none (setPens (block5 s e) q1 q2 q3 q4 twl) e _ _ _ up he]
    · rcases hf : (block5 s e).frozen with _ | w
      · rw [block7_eq_noBaseline (setPens (block5 s e) p1 p2 p3 p4 twl) e _ _ _ up eff he hf,
            block7_eq_noBaseline (setPens (block5 s e) q1 q2 q3 q4 twl) e _ _ _ up eff he hf]
      · rw [block7_eq (setPens (block5 s e) p1 p2 p3 p4 twl) e _ _ _ up eff w he hf,
            block7_eq (setPens (block5 s e) q1 q2 q3 q4 twl) e _ _ _ up eff w he hf]
        rfl

theorem stat7_block5 : block5 stat7 env1 = stat7 := by
  rw [block5_noReset_some stat7 env1 28 rfl rfl rfl]
  rfl

theorem c7_mwlOp_vals :
    mwlOpOf (setPens stat7 0 0 0 0 200) env1 (28:ℝ) = 200 ∧
    mwlOpOf (setPens stat7 3 0 0 0 200) env1 (28:ℝ) = 146 := by
  have hcap : mwlCapOf env1.gt env1.ws (28:ℝ) = 280 := by
    unfold mwlCapOf
    rw [if_neg (by norm_num [env1]), if_neg (by norm_num [env1]),
        if_neg (by norm_num), if_neg (by norm_num)]
  have henv : ∀ r1 : ℚ, mwlEnvOf (setPens stat7 r1 0 0 0 200) env1 (28:ℝ) = 200 := by
    intro r1
    rw [mwlEnvOf_fresh _ env1 28 (by simp [setPens, stat7, initState])]
    have hraw : rawOf (setPens stat7 r1 0 0 0 200) env1 (28:ℝ) = 200 := by
      unfold rawOf
      rw [if_pos (show (0:ℚ) < (setPens stat7 r1 0 0 0 200).twlMeasured
        by norm_num [setPens, stat7, initState])]
      norm_num [setPens, stat7, initState]
    rw [hraw, hcap, min_eq_left (by norm_num : (200:ℝ) ≤ 280)]
  constructor
  · unfold mwlOpOf apply_capacity_penalties
    rw [henv 0]
    norm_num [setPens, stat7, initState, max_def]
  · unfold mwlOpOf apply_capacity_penalties
    rw [henv 3]
    norm_num [setPens, stat7, initState, max_def]

/-- Counterexample to C7 as stated: on a session with an applied 2 degC
penalty (frozen 28, effective 30) and instrument capacity 200, two
evaluations without any apply click that differ only in the live PPE
selection (0 versus 3) produce different operational capacities (200
versus 146 W/m2) and different HSP values — the selections are consumed by
the capacity pipeline on every evaluation, not only on apply. -/
theorem c7_counterexample :
    ∃ o1 o2, (evalStep stat7 env1 0 0 0 0 200 false true true).2.2 = some o1 ∧
      (evalStep stat7 env1 3 0 0 0 200 false true true).2.2 = some o2 ∧
      o1.mwlOp ≠ o2.mwlOp ∧ o1.hsp ≠ o2.hsp := by
  have hkey : ∀ r1 : ℚ, (block5B (setPens (block5 stat7 env1) r1 0 0 0 200) false).1
      = setPens stat7 r1 0 0 0 200 := by
    intro r1
    rw [block5B_false, stat7_block5]
  have h1p := block7_eq (setPens stat7 0 0 0 0 200) env1 29 32 35 true 30 28 rfl rfl
  have h1q := block7_eq (setPens stat7 3 0 0 0 200) env1 29 32 35 true 30 28 rfl rfl
  have hevp := evalStep_out stat7 env1 0 0 0 0 200 false true true _ _
    (by rw [hkey 0]; exact h1p)
  have hevq := evalStep_out stat7 env1 3 0 0 0 200 false true true _ _
    (by rw [hkey 3]; exact h1q)
  rw [hevp, hevq]
  refine ⟨_, _, rfl, rfl, ?_, ?_⟩
  · intro hcon
    simp only [Option.some.injEq] at hcon
    rw [c7_mwlOp_vals.1, c7_mwlOp_vals.2] at hcon
    norm_num at hcon
  · intro hcon
    simp only [Option.some.injEq] at hcon
    have hs1 : hspValOf (setPens stat7 0 0 0 0 200) env1 30 28 = 1 := by
      unfold hspValOf
      rw [c7_mwlOp_vals.1]
      norm_num [max_def]
    have hs2 : hspValOf (setPens stat7 3 0 0 0 200) env1 30 28 = 100/73 := by
      unfold hspValOf
      rw [c7_mwlOp_vals.2]
      norm_num [max_def]
    rw [hs1, hs2] at hcon
    norm_num at hcon

end CHSRMT
